import Mathlib

/-!
Verification of the Tubely media-upload pipeline (learn-file-storage-s3-golang
starter) against its design document.  The Go sources are shallowly embedded:
pure computations become Lean functions, each fallible external call (auth,
metadata store, object store, subprocess) becomes an explicit outcome value
threaded through the handler, and the metadata store is an explicit
association list so frame properties are expressible.  Go `int` is embedded
as `Int` with Go division written as `Int.tdiv` (truncation toward zero);
Go multi-returns `(v, error)` become pairs with `Option String` as the
error component (`none` is `nil`).
-/

namespace Tubely

/-- One entry of `data.Streams`, the structure `getVideoAspectRatio`
decodes from the probe subprocess output (`codec_type`, `width`, `height`).
The `width` and `height` fields hold Go `int` (64-bit) values:
`json.Unmarshal` never stores a number outside the int64 range, and the
arithmetic performed on them in `probeLoop` wraps at 64 bits exactly as
Go arithmetic does. -/
structure StreamEntry where
  codecType : String
  width : Int
  height : Int
  deriving Repr, DecidableEq

/-- Outcome of the `ffprobe` subprocess plus `json.Unmarshal`.  The Go code
discards both the `cmd.Run()` error and the `json.Unmarshal` error, so a
failed or unparseable probe leaves `data` zero-valued, i.e. with an empty
stream list. -/
inductive ProbeOutcome where
  | failure
  | success (streams : List StreamEntry)
  deriving Repr, DecidableEq

/-- Stream list actually seen by the classification loop: empty when the
subprocess failed or its output did not parse. -/
def probeStreams : ProbeOutcome → List StreamEntry
  | .failure => []
  | .success ss => ss

/-- Reduction of an exact integer to the Go `int` (two's-complement
64-bit) value an overflowing operation produces: wrap into
the interval from -2^63 up to 2^63 - 1. -/
def wrap64 (x : Int) : Int := (x + 2 ^ 63) % 2 ^ 64 - 2 ^ 63

/-- The `for _, s := range data.Streams` loop body of `getVideoAspectRatio`:
first stream with declared type "video" and positive width and height is
classified by `ratio := (s.Width * 1000) / s.Height`, where the product
wraps at 64 bits as Go `int` multiplication does and the division
truncates; later streams are ignored; if no stream qualifies the loop
falls through to "other". -/
def probeLoop : List StreamEntry → String
  | [] => "other"
  | s :: rest =>
    if s.codecType = "video" ∧ 0 < s.width ∧ 0 < s.height then
      let ratio := Int.tdiv (wrap64 (s.width * 1000)) s.height
      if 1700 ≤ ratio ∧ ratio ≤ 1850 then "16:9"
      else if 520 ≤ ratio ∧ ratio ≤ 600 then "9:16"
      else "other"
    else probeLoop rest

/-- Embedding of `getVideoAspectRatio`: runs the probe (whose failure is
swallowed), scans the decoded streams, and always returns a nil error. -/
def getVideoAspectRatio (p : ProbeOutcome) : String × Option String :=
  (probeLoop (probeStreams p), none)

/-- The `switch aspectRatio` of `handlerUploadVideo` that turns the
classifier result into the storage-key directory. -/
def orientationDir (aspectRatio : String) : String :=
  match aspectRatio with
  | "16:9" => "landscape"
  | "9:16" => "portrait"
  | _ => "other"

/-- The fields of `database.Video` the pipeline reads or writes.  `videoURL`
is the persisted location field (`*string`, so `Option`). -/
structure Video where
  id : String
  userID : String
  title : String := ""
  thumbnailURL : Option String := none
  videoURL : Option String := none
  deriving Repr, DecidableEq

/-- Behaviour of the S3 presign client: given bucket, key and expiry
duration (Go `time.Duration`, nanoseconds) it yields a URL or an error. -/
def PresignFn : Type := String → String → Int → Except String String

/-- The parts of `apiConfig` the embedded pipeline uses. -/
structure ApiConfig where
  s3Bucket : String
  s3Client : PresignFn

/-- Go `time.Minute` as a `time.Duration` (nanoseconds). -/
def timeMinute : Int := 60 * 1000000000

/-- Cut a character list around the first occurrence of `sep`: `none` when
`sep` does not occur, otherwise `some (before, after)`. -/
def cutCharList (sep : Char) : List Char → Option (List Char × List Char)
  | [] => none
  | c :: rest =>
    if c = sep then some ([], rest)
    else
      match cutCharList sep rest with
      | none => none
      | some (b, a) => some (c :: b, a)

/-- Embedding of Go `strings.Cut(s, sep)` for the one-character separators
this codebase uses: splits around the first instance of `sep`, returning
`(before, after, found)`; when `sep` does not appear it returns
`(s, "", false)`. -/
def stringsCut (s : String) (sep : Char) : String × String × Bool :=
  match cutCharList sep s.toList with
  | none => (s, "", false)
  | some (b, a) => (String.mk b, String.mk a, true)

/-- Split a character list at every occurrence of `sep` (Go `strings.Split`
semantics for a one-character separator). -/
def splitCharList (sep : Char) : List Char → List (List Char)
  | [] => [[]]
  | c :: rest =>
    let r := splitCharList sep rest
    if c = sep then [] :: r
    else
      match r with
      | [] => [[c]]
      | g :: gs => (c :: g) :: gs

/-- Embedding of Go `strings.Split(s, sep)` for a one-character separator. -/
def stringsSplit (s : String) (sep : Char) : List String :=
  (splitCharList sep s.toList).map String.mk

/-- Embedding of `generatePresignedURL`: asks the presign client for a GET
URL on `(bucket, key)` with the given expiry; on error it returns
`("", err)`, otherwise `(url, nil)`. -/
def generatePresignedURL (s3Client : PresignFn) (bucket key : String)
    (expireTime : Int) : String × Option String :=
  match s3Client bucket key expireTime with
  | .ok url => (url, none)
  | .error e => ("", some e)

/-- Embedding of `(cfg *apiConfig) dbVideoToSignedVideo`: nil or empty
location field is a no-op; otherwise the field is cut at the first ","
into `(bucket, key)` (no comma at all is also a no-op), a presigned URL
valid for `time.Minute * 5` is requested, and on success it replaces the
location field of the returned copy. -/
def dbVideoToSignedVideo (cfg : ApiConfig) (video : Video) :
    Video × Option String :=
  match video.videoURL with
  | none => (video, none)
  | some url =>
    if url = "" then (video, none)
    else
      match stringsCut url ',' with
      | (_, _, false) => (video, none)
      | (bucket, key, true) =>
        match generatePresignedURL cfg.s3Client bucket key (timeMinute * 5) with
        | (_, some err) => (video, some err)
        | (presignedURL, none) => ({ video with videoURL := some presignedURL }, none)

/-- Alphabet of Go `base64.RawURLEncoding` (URL-safe, unpadded). -/
def base64URLChar (n : Nat) : Char :=
  "ABCDEFGHIJKLMNOPQRSTUVWXYZabcdefghijklmnopqrstuvwxyz0123456789-_".toList.getD n 'A'

/-- Embedding of `base64.RawURLEncoding.EncodeToString` on a byte list:
three bytes become four six-bit groups; a final group of one or two bytes
becomes two or three characters and no padding is emitted. -/
def base64RawURLEncode : List Nat → String
  | [] => ""
  | [a] => String.mk [base64URLChar (a / 4), base64URLChar (a % 4 * 16)]
  | [a, b] =>
    String.mk [base64URLChar (a / 4), base64URLChar (a % 4 * 16 + b / 16),
      base64URLChar (b % 16 * 4)]
  | a :: b :: c :: rest =>
    String.mk [base64URLChar (a / 4), base64URLChar (a % 4 * 16 + b / 16),
      base64URLChar (b % 16 * 4 + c / 64), base64URLChar (c % 64)] ++
      base64RawURLEncode rest

/-- Contents of the Go buffer `randomBytes := make([]byte, 32)` after a
successful `rand.Read`: exactly 32 bytes. -/
def RandomBytes : Type := { l : List Nat // l.length = 32 ∧ ∀ x ∈ l, x < 256 }

/-- The metadata store (owned by the excluded `internal/database` package),
as an association list from video id to record. -/
def Store : Type := List (String × Video)

/-- Modelled from the spec: `UpdateRecord(record)` of the excluded metadata
store replaces the stored record carrying the given record's id. -/
def storeUpdate (st : Store) (v : Video) : Store :=
  st.map fun p => if p.1 = v.id then (v.id, v) else p

/-- Modelled from the spec: `GetRecord(id)` of the excluded metadata store
looks the record up by id. -/
def lookupVideo (st : Store) (id : String) : Option Video :=
  (st.find? fun p => p.1 = id).map (·.2)

/-- Embedding of `processVideoForFastStart`: the `ffmpeg` remux outcome is
an input; on success the output path is the input path suffixed with
".processing", on a non-zero exit the error propagates with an empty path. -/
def processVideoForFastStart (run : Except String Unit) (filePath : String) :
    String × Option String :=
  match run with
  | .error e => ("", some e)
  | .ok _ => (filePath ++ ".processing", none)

/-- Outcomes of every external call `handlerUploadVideo` makes, in pipeline
order.  Each `Except` is the result of one single-attempt call of the Go
code; `probe` is the `ffprobe` outcome consumed by `getVideoAspectRatio`
and `fastStart` the `ffmpeg` outcome consumed by
`processVideoForFastStart`. -/
structure UploadEnv where
  videoIDParse : Except String String
  getBearerToken : Except String String
  validateJWT : Except String String
  getVideo : Except String Video
  parseMultipartForm : Except String Unit
  formFile : Except String Unit
  parseMediaType : Except String String
  createTemp : Except String String
  ioCopy : Except String Unit
  randRead : Except String RandomBytes
  probe : ProbeOutcome
  fastStart : Except String Unit
  openProcessed : Except String Unit
  putObject : Except String Unit
  updateVideo : Except String Unit

/-- Observable outcome of one run of `handlerUploadVideo`: the HTTP
response, whether and with what arguments `PutObject` was invoked, and
whether and with what record `UpdateVideo` was invoked. -/
structure HandlerResult where
  status : Nat
  message : String
  putCalled : Option (String × String × String) := none
  updateCalled : Option Video := none
  response : Option Video := none
  deriving Repr, DecidableEq

/-- Error response helper mirroring `respondWithError`. -/
def respondError (status : Nat) (message : String) : HandlerResult :=
  { status := status, message := message }

/-- Embedding of `(cfg *apiConfig) handlerUploadVideo`, threading the
metadata store explicitly: parameter parsing, auth, ownership check,
multipart parsing, media-type validation, spooling, random key generation,
classification, faststart remux, object-store upload, and only then the
metadata write and the signed response.  The store is modified exactly at
the successful `UpdateVideo` call. -/
def handlerUploadVideo (cfg : ApiConfig) (st : Store) (env : UploadEnv) :
    Store × HandlerResult :=
  match env.videoIDParse with
  | .error _ => (st, respondError 400 "Invalid ID")
  | .ok _videoID =>
  match env.getBearerToken with
  | .error _ => (st, respondError 401 "Couldnt find JWT")
  | .ok _token =>
  match env.validateJWT with
  | .error _ => (st, respondError 401 "Couldnt validate JWT")
  | .ok userID =>
  match env.getVideo with
  | .error _ => (st, respondError 400 "Unable to get video metadata")
  | .ok metadata =>
  if metadata.userID ≠ userID then (st, respondError 401 "Not your video m8")
  else
  match env.parseMultipartForm with
  | .error _ => (st, respondError 400 "Upload too large or invalid multipart form")
  | .ok _ =>
  match env.formFile with
  | .error _ => (st, respondError 400 "Unable to parse form file")
  | .ok _ =>
  match env.parseMediaType with
  | .error _ => (st, respondError 400 "Unable to get mediaType")
  | .ok mediaType =>
  if mediaType ≠ "video/mp4" then (st, respondError 400 "Unable to get mediaType")
  else
  match env.createTemp with
  | .error _ => (st, respondError 500 "Unable to create temp file")
  | .ok tempPath =>
  match env.ioCopy with
  | .error _ => (st, respondError 500 "Unable to copy to temp file")
  | .ok _ =>
  match env.randRead with
  | .error _ => (st, respondError 500 "Unable to create image name")
  | .ok randomBytes =>
  let fileExtension := (stringsSplit mediaType '/').getD 1 ""
  let baseName := base64RawURLEncode randomBytes.val ++ "." ++ fileExtension
  match getVideoAspectRatio env.probe with
  | (_, some _) => (st, respondError 500 "Unable to get file aspect ratio")
  | (aspectRatio, none) =>
  let fileName := orientationDir aspectRatio ++ "/" ++ baseName
  match processVideoForFastStart env.fastStart tempPath with
  | (_, some _) => (st, respondError 500 "Unable to process video for fast start")
  | (_processedPath, none) =>
  match env.openProcessed with
  | .error _ => (st, respondError 500 "Unable to process video for fast start")
  | .ok _ =>
  match env.putObject with
  | .error _ =>
    (st, { respondError 500 "Unable to update video" with
             putCalled := some (cfg.s3Bucket, fileName, mediaType) })
  | .ok _ =>
  let videoURL := cfg.s3Bucket ++ "," ++ fileName
  let metadataNew := { metadata with videoURL := some videoURL }
  match env.updateVideo with
  | .error _ =>
    (st, { respondError 500 "Unable to update video" with
             putCalled := some (cfg.s3Bucket, fileName, mediaType),
             updateCalled := some metadataNew })
  | .ok _ =>
  let stNew := storeUpdate st metadataNew
  match dbVideoToSignedVideo cfg metadataNew with
  | (_, some _) =>
    (stNew, { respondError 500 "Unable to update video" with
                putCalled := some (cfg.s3Bucket, fileName, mediaType),
                updateCalled := some metadataNew })
  | (video, none) =>
    (stNew, { status := 200, message := "OK",
              putCalled := some (cfg.s3Bucket, fileName, mediaType),
              updateCalled := some metadataNew,
              response := some video })

/-- State-passing form of `dbVideoToSignedVideo`: the Go function calls no
metadata-store operation, so its monadic translation threads the store
through untouched. -/
def dbVideoToSignedVideoS (cfg : ApiConfig) (st : Store) (video : Video) :
    Store × Video × Option String :=
  (st, dbVideoToSignedVideo cfg video)

/-- One read-path resolution of the record stored under `id`: read the
record (spec §4.6 read path), resolve it, keep whatever store the
resolution leaves behind, discard the response copy. -/
def resolveOnce (cfg : ApiConfig) (st : Store) (id : String) : Store :=
  match lookupVideo st id with
  | none => st
  | some v => (dbVideoToSignedVideoS cfg st v).1

/-- Iterated read-path resolutions of the record stored under `id`. -/
def resolveN (cfg : ApiConfig) (st : Store) (id : String) : Nat → Store
  | 0 => st
  | n + 1 => resolveN cfg (resolveOnce cfg st id) id n

/-- Presign client used for concrete evaluations: deterministic URL built
from bucket and key, never failing. -/
def sampleClient : PresignFn := fun bucket key _ =>
  .ok ("https://signed.example/" ++ bucket ++ "/" ++ key)

/-- Concrete configuration for concrete evaluations. -/
def sampleCfg : ApiConfig := { s3Bucket := "tubely-bkt", s3Client := sampleClient }

/-- Concrete record with no uploaded asset yet. -/
def sampleVideo : Video := { id := "vid-1", userID := "u1" }

/-- Concrete 32-byte random buffer (all zero). -/
def sampleBytes : RandomBytes := ⟨List.replicate 32 0, by decide⟩

/-- Environment in which every external call of the upload pipeline
succeeds, the probe reporting one 1280 x 720 video stream. -/
def envOK : UploadEnv :=
  { videoIDParse := .ok "vid-1"
    getBearerToken := .ok "tok"
    validateJWT := .ok "u1"
    getVideo := .ok sampleVideo
    parseMultipartForm := .ok ()
    formFile := .ok ()
    parseMediaType := .ok "video/mp4"
    createTemp := .ok "/tmp/tubely-upload.mp4"
    ioCopy := .ok ()
    randRead := .ok sampleBytes
    probe := .success [⟨"video", 1280, 720⟩]
    fastStart := .ok ()
    openProcessed := .ok ()
    putObject := .ok ()
    updateVideo := .ok () }

/-- Environment identical to `envOK` except that the object-store Put
call fails. -/
def envPutFail : UploadEnv := { envOK with putObject := .error "boom" }

/-- Helper: the classification loop yields "other" when no stream
qualifies. -/
theorem probeLoop_eq_other (l : List StreamEntry)
    (h : ∀ s ∈ l, ¬(s.codecType = "video" ∧ 0 < s.width ∧ 0 < s.height)) :
    probeLoop l = "other" := by
  induction l with
  | nil => rfl
  | cons s rest ih =>
    rw [probeLoop, if_neg (h s (List.mem_cons_self s rest))]
    exact ih fun t ht => h t (List.mem_cons_of_mem s ht)

/-- Helper: cutting at a character that does not occur yields `none`. -/
theorem cutCharList_eq_none (sep : Char) (l : List Char)
    (h : ∀ c ∈ l, c ≠ sep) : cutCharList sep l = none := by
  induction l with
  | nil => rfl
  | cons c rest ih =>
    rw [cutCharList, if_neg (h c (List.mem_cons_self c rest))]
    rw [ih fun d hd => h d (List.mem_cons_of_mem c hd)]

/-- Helper: the key-directory switch only ever produces the three
categories. -/
theorem orientationDir_cases (s : String) :
    orientationDir s = "landscape" ∨ orientationDir s = "portrait" ∨
      orientationDir s = "other" := by
  unfold orientationDir
  split
  · exact Or.inl rfl
  · exact Or.inr (Or.inl rfl)
  · exact Or.inr (Or.inr rfl)

/-- Helper: one read-path resolution leaves the store unchanged. -/
theorem resolveOnce_eq (cfg : ApiConfig) (st : Store) (id : String) :
    resolveOnce cfg st id = st := by
  unfold resolveOnce
  cases lookupVideo st id <;> rfl

/-- Helper: wrapping at 64 bits is the identity on the int64 range. -/
theorem wrap64_eq_self (x : Int) (h1 : -(2 ^ 63) ≤ x) (h2 : x < 2 ^ 63) :
    wrap64 x = x := by
  unfold wrap64
  omega

/-- C2 as amended: for positive width and height whose product w*1000 is
still representable in Go's 64-bit int (no wrap), the classifier computes
`ratio = floor(w*1000/h)` by truncating integer division (truncation and
floor agree here), and classifies ratios in [1700, 1850] as landscape,
ratios in [520, 600] as portrait, and every other ratio as other. -/
theorem classifier_ratio_ranges (w h ratio : Int) (hw : 0 < w) (hh : 0 < h)
    (hw64 : w * 1000 < 2 ^ 63) (hr : ratio = Int.tdiv (w * 1000) h) :
    ratio = Int.fdiv (w * 1000) h ∧
    ((1700 ≤ ratio ∧ ratio ≤ 1850) →
      orientationDir (getVideoAspectRatio (.success [⟨"video", w, h⟩])).1 =
        "landscape") ∧
    ((520 ≤ ratio ∧ ratio ≤ 600) →
      orientationDir (getVideoAspectRatio (.success [⟨"video", w, h⟩])).1 =
        "portrait") ∧
    (¬(1700 ≤ ratio ∧ ratio ≤ 1850) → ¬(520 ≤ ratio ∧ ratio ≤ 600) →
      orientationDir (getVideoAspectRatio (.success [⟨"video", w, h⟩])).1 =
        "other") := by
  subst hr
  have hguard : ((⟨"video", w, h⟩ : StreamEntry).codecType = "video" ∧
      0 < (⟨"video", w, h⟩ : StreamEntry).width ∧
      0 < (⟨"video", w, h⟩ : StreamEntry).height) := ⟨rfl, hw, hh⟩
  have hwrap : wrap64 (w * 1000) = w * 1000 := by
    have h0 : (0 : Int) < w * 1000 := by positivity
    exact wrap64_eq_self (w * 1000) (by omega) hw64
  refine ⟨?_, ?_, ?_, ?_⟩
  · rw [Int.fdiv_eq_tdiv (by positivity) hh.le]
  · intro hin
    show orientationDir (probeLoop [⟨"video", w, h⟩]) = "landscape"
    rw [probeLoop, if_pos hguard]
    show orientationDir
      (if 1700 ≤ Int.tdiv (wrap64 (w * 1000)) h ∧ Int.tdiv (wrap64 (w * 1000)) h ≤ 1850
         then "16:9"
       else if 520 ≤ Int.tdiv (wrap64 (w * 1000)) h ∧ Int.tdiv (wrap64 (w * 1000)) h ≤ 600
         then "9:16"
       else "other") = "landscape"
    rw [hwrap]
    rw [if_pos hin]
    decide
  · intro hin
    show orientationDir (probeLoop [⟨"video", w, h⟩]) = "portrait"
    rw [probeLoop, if_pos hguard]
    show orientationDir
      (if 1700 ≤ Int.tdiv (wrap64 (w * 1000)) h ∧ Int.tdiv (wrap64 (w * 1000)) h ≤ 1850
         then "16:9"
       else if 520 ≤ Int.tdiv (wrap64 (w * 1000)) h ∧ Int.tdiv (wrap64 (w * 1000)) h ≤ 600
         then "9:16"
       else "other") = "portrait"
    rw [hwrap]
    rw [if_neg (by omega), if_pos hin]
    decide
  · intro h1 h2
    show orientationDir (probeLoop [⟨"video", w, h⟩]) = "other"
    rw [probeLoop, if_pos hguard]
    show orientationDir
      (if 1700 ≤ Int.tdiv (wrap64 (w * 1000)) h ∧ Int.tdiv (wrap64 (w * 1000)) h ≤ 1850
         then "16:9"
       else if 520 ≤ Int.tdiv (wrap64 (w * 1000)) h ∧ Int.tdiv (wrap64 (w * 1000)) h ≤ 600
         then "9:16"
       else "other") = "other"
    rw [hwrap]
    rw [if_neg h1, if_neg h2]
    decide

/-- Witness for C2 at the eight boundary ratios, realised as width w over
height 1000 so that the ratio equals w exactly. -/
theorem classifier_ratio_ranges_witness :
    orientationDir (getVideoAspectRatio (.success [⟨"video", 1700, 1000⟩])).1 = "landscape" ∧
    orientationDir (getVideoAspectRatio (.success [⟨"video", 1850, 1000⟩])).1 = "landscape" ∧
    orientationDir (getVideoAspectRatio (.success [⟨"video", 520, 1000⟩])).1 = "portrait" ∧
    orientationDir (getVideoAspectRatio (.success [⟨"video", 600, 1000⟩])).1 = "portrait" ∧
    orientationDir (getVideoAspectRatio (.success [⟨"video", 1699, 1000⟩])).1 = "other" ∧
    orientationDir (getVideoAspectRatio (.success [⟨"video", 1851, 1000⟩])).1 = "other" ∧
    orientationDir (getVideoAspectRatio (.success [⟨"video", 519, 1000⟩])).1 = "other" ∧
    orientationDir (getVideoAspectRatio (.success [⟨"video", 601, 1000⟩])).1 = "other" :=
  ⟨(classifier_ratio_ranges 1700 1000 1700 (by decide) (by decide) (by decide) (by decide)).2.1 (by decide),
   (classifier_ratio_ranges 1850 1000 1850 (by decide) (by decide) (by decide) (by decide)).2.1 (by decide),
   (classifier_ratio_ranges 520 1000 520 (by decide) (by decide) (by decide) (by decide)).2.2.1 (by decide),
   (classifier_ratio_ranges 600 1000 600 (by decide) (by decide) (by decide) (by decide)).2.2.1 (by decide),
   (classifier_ratio_ranges 1699 1000 1699 (by decide) (by decide) (by decide) (by decide)).2.2.2
     (by decide) (by decide),
   (classifier_ratio_ranges 1851 1000 1851 (by decide) (by decide) (by decide) (by decide)).2.2.2
     (by decide) (by decide),
   (classifier_ratio_ranges 519 1000 519 (by decide) (by decide) (by decide) (by decide)).2.2.2
     (by decide) (by decide),
   (classifier_ratio_ranges 601 1000 601 (by decide) (by decide) (by decide) (by decide)).2.2.2
     (by decide) (by decide)⟩

/-- Counterexample to C2 as stated: width 36893488147419105 is
representable in Go int64 and positive, height 1 is positive, and the
exact ratio floor(w*1000/h) = 36893488147419105000 lies outside both
ranges, so the claim predicts the other category; but the Go 64-bit
product wraps to 1768, which lands in [1700, 1850], and the classifier
returns "16:9", i.e. landscape. -/
theorem classifier_wrap_counterexample :
    (0 : Int) < 36893488147419105 ∧ (0 : Int) < 1 ∧
    (36893488147419105 : Int) ≤ 2 ^ 63 - 1 ∧
    Int.fdiv ((36893488147419105 : Int) * 1000) 1 = 36893488147419105000 ∧
    ¬(1700 ≤ (36893488147419105000 : Int) ∧
      (36893488147419105000 : Int) ≤ 1850) ∧
    ¬(520 ≤ (36893488147419105000 : Int) ∧
      (36893488147419105000 : Int) ≤ 600) ∧
    getVideoAspectRatio (.success [⟨"video", 36893488147419105, 1⟩]) =
      ("16:9", none) ∧
    orientationDir
        (getVideoAspectRatio (.success [⟨"video", 36893488147419105, 1⟩])).1 =
      "landscape" := by
  decide

/-- C3: whenever no stream of the probe outcome qualifies (probe failed,
output unparseable, or no stream has declared type "video" with positive
width and height), the classifier returns "other" with a nil error. -/
theorem classifier_no_qualifying_stream (p : ProbeOutcome)
    (h : ∀ s ∈ probeStreams p,
      ¬(s.codecType = "video" ∧ 0 < s.width ∧ 0 < s.height)) :
    getVideoAspectRatio p = ("other", none) := by
  unfold getVideoAspectRatio
  rw [probeLoop_eq_other (probeStreams p) h]

/-- Witness for C3 on a probe output holding one audio stream and one
zero-height stream. -/
theorem classifier_no_qualifying_stream_witness :
    getVideoAspectRatio (.success [⟨"audio", 1920, 1080⟩, ⟨"video", 1920, 0⟩]) =
      ("other", none) :=
  classifier_no_qualifying_stream
    (.success [⟨"audio", 1920, 1080⟩, ⟨"video", 1920, 0⟩]) (by decide)

/-- C6: resolving a record whose location field is nil or empty returns
the record unchanged with a nil error. -/
theorem resolve_absent_or_empty (cfg : ApiConfig) (video : Video)
    (h : video.videoURL = none ∨ video.videoURL = some "") :
    dbVideoToSignedVideo cfg video = (video, none) := by
  rcases h with h | h <;> simp [dbVideoToSignedVideo, h]

/-- Witness for C6 on a record with no location field. -/
theorem resolve_absent_or_empty_witness :
    dbVideoToSignedVideo sampleCfg sampleVideo = (sampleVideo, none) :=
  resolve_absent_or_empty sampleCfg sampleVideo (Or.inl rfl)

/-- C9: the read-path resolver makes no metadata-store write: its
state-passing form returns the store untouched, any number of
resolutions of the record stored under any id leaves the store equal to
the initial store, and the stored record (hence the bucket and key each
resolution cuts out and signs) is the same on every read. -/
theorem resolve_no_store_write (cfg : ApiConfig) (st : Store) (video : Video)
    (id : String) (n : Nat) :
    (dbVideoToSignedVideoS cfg st video).1 = st ∧
    resolveN cfg st id n = st ∧
    lookupVideo (resolveN cfg st id n) id = lookupVideo st id := by
  have hN : resolveN cfg st id n = st := by
    induction n with
    | zero => rfl
    | succ m ih => rw [resolveN, resolveOnce_eq]; exact ih
  exact ⟨rfl, hN, by rw [hN]⟩

/-- Counterexample to C4: a location field with more than one comma is NOT
returned unchanged — `strings.Cut` splits "a,b,c" at the first comma into
bucket "a" and key "b,c" and the resolver signs and substitutes a URL. -/
theorem resolve_multi_comma_counterexample :
    dbVideoToSignedVideo sampleCfg
        { id := "v9", userID := "u9", videoURL := some "a,b,c" } ≠
      ({ id := "v9", userID := "u9", videoURL := some "a,b,c" }, none) ∧
    dbVideoToSignedVideo sampleCfg
        { id := "v9", userID := "u9", videoURL := some "a,b,c" } =
      ({ id := "v9", userID := "u9",
         videoURL := some "https://signed.example/a/b,c" }, none) := by
  constructor <;> decide

/-- C4 as amended: only a present location field with no occurrence of the
delimiter "," at all is treated as nothing to resolve and returned
unchanged with no error; a field with one or more commas is split at the
first comma (any further commas land inside the key) and resolved. -/
theorem resolve_no_comma_noop (cfg : ApiConfig) (video : Video) (url : String)
    (hurl : video.videoURL = some url) (hc : ∀ c ∈ url.toList, c ≠ ',') :
    dbVideoToSignedVideo cfg video = (video, none) := by
  unfold dbVideoToSignedVideo
  rw [hurl]
  dsimp only
  by_cases he : url = ""
  · rw [if_pos he]
  · rw [if_neg he]
    have : stringsCut url ',' = (url, "", false) := by
      unfold stringsCut
      rw [cutCharList_eq_none ',' url.toList hc]
    rw [this]

/-- Witness for the amended C4 on the comma-free location field "abc". -/
theorem resolve_no_comma_noop_witness :
    dbVideoToSignedVideo sampleCfg
        { id := "v8", userID := "u8", videoURL := some "abc" } =
      ({ id := "v8", userID := "u8", videoURL := some "abc" }, none) :=
  resolve_no_comma_noop sampleCfg
    { id := "v8", userID := "u8", videoURL := some "abc" } "abc" rfl (by decide)

/-- C8: when the location field is present and cuttable into
`(bucket, key)`, the resolver asks the presign client for a GET URL on
exactly that bucket and key with expiry `time.Minute * 5` — five minutes,
300 * 10^9 nanoseconds — and substitutes the returned URL into the
location field of the returned copy, with a nil error. -/
theorem resolve_signs_five_minutes (cfg : ApiConfig) (video : Video)
    (url bucket key u : String) (hurl : video.videoURL = some url)
    (hcut : stringsCut url ',' = (bucket, key, true))
    (hclient : cfg.s3Client bucket key (timeMinute * 5) = .ok u) :
    dbVideoToSignedVideo cfg video = ({ video with videoURL := some u }, none) ∧
    timeMinute * 5 = 300 * 1000000000 := by
  have hne : url ≠ "" := by
    intro he
    subst he
    have : stringsCut "" ',' = ("", "", false) := by decide
    rw [this] at hcut
    simp at hcut
  refine ⟨?_, by decide⟩
  unfold dbVideoToSignedVideo
  rw [hurl]
  dsimp only
  rw [if_neg hne, hcut]
  dsimp only
  unfold generatePresignedURL
  rw [hclient]

/-- Witness for C8: resolving a stored "bucket,key" reference with the
sample presign client substitutes the five-minute signed URL. -/
theorem resolve_signs_five_minutes_witness :
    dbVideoToSignedVideo sampleCfg
        { id := "v7", userID := "u7", videoURL := some "tubely-bkt,landscape/x.mp4" } =
      ({ id := "v7", userID := "u7",
         videoURL := some "https://signed.example/tubely-bkt/landscape/x.mp4" }, none) ∧
    timeMinute * 5 = 300 * 1000000000 :=
  resolve_signs_five_minutes sampleCfg
    { id := "v7", userID := "u7", videoURL := some "tubely-bkt,landscape/x.mp4" }
    "tubely-bkt,landscape/x.mp4" "tubely-bkt" "landscape/x.mp4"
    "https://signed.example/tubely-bkt/landscape/x.mp4" rfl (by decide) rfl

/-- Helper: every 32-byte random buffer has length 32. -/
theorem randomBytes_length (r : RandomBytes) : r.val.length = 32 := r.2.1

/-- Helper: the subtype extracted from the validated media type. -/
theorem mp4Subtype : (stringsSplit "video/mp4" '/')[1]?.getD "" = "mp4" := by decide

/-- C1: whenever the object-store Put call fails, the handler aborts with
the store error response, never calls UpdateVideo, and leaves the metadata
store (hence the stored location field) untouched. -/
theorem put_failure_aborts_without_update (cfg : ApiConfig) (st : Store)
    (env : UploadEnv) (e : String) (hput : env.putObject = .error e) :
    ((handlerUploadVideo cfg st env).2).updateCalled = none ∧
    (handlerUploadVideo cfg st env).1 = st ∧
    (((handlerUploadVideo cfg st env).2).putCalled ≠ none →
      ((handlerUploadVideo cfg st env).2).status = 500 ∧
      ((handlerUploadVideo cfg st env).2).message = "Unable to update video") := by
  simp only [handlerUploadVideo]
  repeat' split
  all_goals simp_all [respondError]

/-- Witness for C1: a run in which everything up to the upload succeeds
but the Put call fails ends with no UpdateVideo call, an unchanged store,
and the 500 store-error response. -/
theorem put_failure_aborts_without_update_witness :
    ((handlerUploadVideo sampleCfg [] envPutFail).2).updateCalled = none ∧
    (handlerUploadVideo sampleCfg [] envPutFail).1 = [] ∧
    (((handlerUploadVideo sampleCfg [] envPutFail).2).putCalled ≠ none →
      ((handlerUploadVideo sampleCfg [] envPutFail).2).status = 500 ∧
      ((handlerUploadVideo sampleCfg [] envPutFail).2).message =
        "Unable to update video") :=
  put_failure_aborts_without_update sampleCfg [] envPutFail "boom" rfl

/-- C5: every record handed to UpdateVideo carries as its location field
exactly the configured bucket, one comma, and the storage key that was
uploaded — never any other serialization. -/
theorem persisted_location_format (cfg : ApiConfig) (st : Store)
    (env : UploadEnv) (v : Video) :
    ((handlerUploadVideo cfg st env).2).updateCalled = some v →
    ∃ key, ((handlerUploadVideo cfg st env).2).putCalled =
        some (cfg.s3Bucket, key, "video/mp4") ∧
      v.videoURL = some (cfg.s3Bucket ++ "," ++ key) := by
  simp only [handlerUploadVideo]
  repeat' split
  all_goals intro hupd
  all_goals simp_all [respondError]
  all_goals rw [← hupd]

/-- Witness for C5 on a fully successful run. -/
theorem persisted_location_format_witness :
    ∃ key, ((handlerUploadVideo sampleCfg [] envOK).2).putCalled =
        some (sampleCfg.s3Bucket, key, "video/mp4") ∧
      ({ sampleVideo with
          videoURL := some "tubely-bkt,landscape/AAAAAAAAAAAAAAAAAAAAAAAAAAAAAAAAAAAAAAAAAAA.mp4" } : Video).videoURL =
        some (sampleCfg.s3Bucket ++ "," ++ key) :=
  persisted_location_format sampleCfg [] envOK
    { sampleVideo with videoURL := some "tubely-bkt,landscape/AAAAAAAAAAAAAAAAAAAAAAAAAAAAAAAAAAAAAAAAAAA.mp4" } (by decide)

/-- C7: every key handed to the object store has the form
orientation/randomid.extension: the orientation is the classifier category
for the probed stream, the random id is the unpadded URL-safe base64
encoding of the 32 random bytes drawn for this upload, and the extension
is the subtype of the validated media type video/mp4. -/
theorem storage_key_format (cfg : ApiConfig) (st : Store) (env : UploadEnv)
    (b k ct : String) (bytes : RandomBytes) :
    ((handlerUploadVideo cfg st env).2).putCalled = some (b, k, ct) →
    env.randRead = .ok bytes →
    b = cfg.s3Bucket ∧ ct = "video/mp4" ∧ bytes.val.length = 32 ∧
    k = orientationDir (getVideoAspectRatio env.probe).1 ++ "/" ++
      base64RawURLEncode bytes.val ++ "." ++ "mp4" ∧
    (orientationDir (getVideoAspectRatio env.probe).1 = "landscape" ∨
     orientationDir (getVideoAspectRatio env.probe).1 = "portrait" ∨
     orientationDir (getVideoAspectRatio env.probe).1 = "other") := by
  simp only [handlerUploadVideo]
  repeat' split
  all_goals intro hp hbytes
  all_goals simp_all [respondError, randomBytes_length, mp4Subtype,
    String.append_assoc]
  all_goals exact orientationDir_cases _

/-- Witness for C7 on a fully successful run with the all-zero random
buffer, classified landscape. -/
theorem storage_key_format_witness :
    "tubely-bkt" = sampleCfg.s3Bucket ∧ "video/mp4" = "video/mp4" ∧
    sampleBytes.val.length = 32 ∧
    "landscape/AAAAAAAAAAAAAAAAAAAAAAAAAAAAAAAAAAAAAAAAAAA.mp4" =
      orientationDir (getVideoAspectRatio envOK.probe).1 ++ "/" ++
        base64RawURLEncode sampleBytes.val ++ "." ++ "mp4" ∧
    (orientationDir (getVideoAspectRatio envOK.probe).1 = "landscape" ∨
     orientationDir (getVideoAspectRatio envOK.probe).1 = "portrait" ∨
     orientationDir (getVideoAspectRatio envOK.probe).1 = "other") :=
  storage_key_format sampleCfg [] envOK "tubely-bkt"
    "landscape/AAAAAAAAAAAAAAAAAAAAAAAAAAAAAAAAAAAAAAAAAAA.mp4" "video/mp4" sampleBytes (by decide) rfl

/-- C10: the classifier returns a nil error on every probe outcome, so the
handler branch that reports an aspect-ratio error (message "Unable to get
file aspect ratio") is unreachable in every run. -/
theorem aspect_error_branch_unreachable :
    (∀ p, (getVideoAspectRatio p).2 = none) ∧
    (∀ cfg st env, ((handlerUploadVideo cfg st env).2).message ≠
      "Unable to get file aspect ratio") := by
  refine ⟨fun p => rfl, fun cfg st env => ?_⟩
  simp only [handlerUploadVideo]
  repeat' split
  all_goals simp_all [respondError, getVideoAspectRatio]

end Tubely
